import Mathlib

/-!
Verification development for the `oos/static_IP_proxy` repository.

The program verified here is the enhanced proxy server of
`src/unnamed/part_001` (the Express application spanning lines 166-576):
an HTTP forwarding endpoint (`/proxy`) plus a stateful SFTP session
manager (`/sftp/connect`, `/sftp/list/:connectionId`,
`/sftp/download/:connectionId`, `/sftp/upload/:connectionId`,
`/sftp/disconnect/:connectionId`) whose sessions live in the
`app.locals.sftpConnections` object keyed by connection id.

Each Express handler is embedded as a pure Lean function.  The outcomes of
the awaited remote calls (`sftp.connect`, `sftp.list`, `sftp.get`,
`sftp.put`, `sftp.end`, `fs.unlinkSync`) are passed in as `Except` values:
`Except.ok` models normal return, `Except.error` models a thrown
exception, and the handler body reproduces the source's `try`/`catch`
control flow around them.  JavaScript object state
(`app.locals.sftpConnections`) is modelled as an association list with
unique keys, and JSON response bodies as a concrete `JsonVal` type so
that response shapes can be inspected field by field.
-/

/-- A JSON value, used to model the `res.json({...})` response bodies
built by the server.  Object fields are kept in source order. -/
inductive JsonVal where
  | str (s : String)
  | num (n : Int)
  | bool (b : Bool)
  | null
  | arr (elems : List JsonVal)
  | obj (fields : List (String × JsonVal))

/-- Field lookup in a JSON object (`none` on non-objects and absent keys). -/
def JsonVal.getKey : JsonVal → String → Option JsonVal
  | .obj fields, k => (fields.find? (fun p => p.1 == k)).map (·.2)
  | _, _ => none

/-- An HTTP response produced by a handler: either a JSON body with a
status code (`res.status(s).json(b)` / `res.json(b)`), or a raw file
attachment (`res.send(data)` with a `Content-Disposition` header, used by
the download endpoint's success path). -/
inductive Response where
  | json (status : Nat) (body : JsonVal)
  | fileAttachment (filename : String) (data : List Nat)

/-- The status code of a response (`res.send` without `res.status` is 200). -/
def Response.statusCode : Response → Nat
  | .json s _ => s
  | .fileAttachment _ _ => 200

/-- Field lookup in a JSON response's body. -/
def Response.bodyKey (r : Response) (k : String) : Option JsonVal :=
  match r with
  | .json _ b => b.getKey k
  | .fileAttachment _ _ => none

/-- JavaScript truthiness of an optional string value: `undefined` and
the empty string are falsy (`!host`, `!targetUrl`, `!remotePath` in the
source), every other string is truthy. -/
def truthy : Option String → Bool
  | none => false
  | some s => !(s == "")

/-- JavaScript `n || d` for an optional numeric field (`port || 22`):
`undefined` and `0` are falsy and fall through to the default. -/
def jsOrNat (v : Option Nat) (d : Nat) : Nat :=
  match v with
  | none => d
  | some n => if n == 0 then d else n

/-- The session registry `app.locals.sftpConnections`: a JavaScript
object mapping connection-id strings to live SFTP client handles.  A
handle is opaque to the server, so it is modelled as a `Nat` tag.  Keys
are unique (JavaScript object semantics). -/
abbrev Registry : Type := List (String × Nat)

/-- Lookup `obj[k]` (`req.app.locals.sftpConnections?.[connectionId]`). -/
def objGet (reg : Registry) (k : String) : Option Nat :=
  (reg.find? (fun p => p.1 == k)).map (·.2)

/-- Assignment `obj[k] = v`: overwrites an existing binding, otherwise
appends a new one. -/
def objSet (reg : Registry) (k : String) (v : Nat) : Registry :=
  if reg.any (fun p => p.1 == k) then
    reg.map (fun p => if p.1 == k then (k, v) else p)
  else
    reg ++ [(k, v)]

/-- Deletion `delete obj[k]`. -/
def objDelete (reg : Registry) (k : String) : Registry :=
  reg.filter (fun p => !(p.1 == k))

/-- The 404 body shared verbatim by the list, download, upload and
disconnect handlers when the connection id is not in the registry. -/
def connectionNotFoundResponse : Response :=
  .json 404 (.obj [("error", .str "Connection not found"),
                   ("message", .str "SFTP connection not found or expired")])

/-- A directory entry as projected by the list handler from the
`sftp.list` result (`files.map(file => ({name, type, size, ...}))`). -/
structure FileEntry where
  name : String
  type : String
  size : Nat
  modifyTime : Nat
  accessTime : Nat
  rights : String

/-- JSON rendering of one directory entry, field order as in the source. -/
def FileEntry.toJson (f : FileEntry) : JsonVal :=
  .obj [("name", .str f.name), ("type", .str f.type),
        ("size", .num f.size), ("modifyTime", .num f.modifyTime),
        ("accessTime", .num f.accessTime), ("rights", .str f.rights)]

/-- The success body of the list handler (src/unnamed/part_001 lines
380-392): `{success: true, path, files, timestamp}` — note the source
includes a `timestamp` field and no `count` field. -/
def listSuccessBody (remotePath : String) (files : List FileEntry)
    (timestamp : String) : JsonVal :=
  .obj [("success", .bool true),
        ("path", .str remotePath),
        ("files", .arr (files.map FileEntry.toJson)),
        ("timestamp", .str timestamp)]

/-- Handler of `GET /sftp/list/:connectionId` (src/unnamed/part_001
lines 366-400).  `pathQ` is the `path` query parameter (`none` when
absent, defaulted to `"."` by the destructuring), `listResult` the
outcome of `await sftp.list(remotePath)`. -/
def listHandler (reg : Registry) (connectionId : String)
    (pathQ : Option String) (listResult : Except String (List FileEntry))
    (timestamp : String) : Response :=
  let remotePath := pathQ.getD "."
  match objGet reg connectionId with
  | none => connectionNotFoundResponse
  | some _ =>
    match listResult with
    | .ok files => .json 200 (listSuccessBody remotePath files timestamp)
    | .error e =>
      .json 500 (.obj [("error", .str "Failed to list files"),
                       ("message", .str e)])

/-- Handler of `POST /sftp/disconnect/:connectionId` (src/unnamed/part_001
lines 492-519).  `endResult` is the outcome of `await sftp.end()`; note
that in the source the `delete` statement sits inside the `try` block
after the `await`, so a throwing `end()` jumps to the `catch` before the
registry entry is removed. -/
def disconnectHandler (reg : Registry) (connectionId : String)
    (endResult : Except String Unit) (timestamp : String) :
    Response × Registry :=
  match objGet reg connectionId with
  | none => (connectionNotFoundResponse, reg)
  | some _ =>
    match endResult with
    | .ok _ =>
      (.json 200 (.obj [("success", .bool true),
                        ("message", .str "SFTP connection closed"),
                        ("timestamp", .str timestamp)]),
       objDelete reg connectionId)
    | .error e =>
      (.json 500 (.obj [("error", .str "Failed to disconnect"),
                        ("message", .str e)]),
       reg)

/-- Last path component, modelling `path.basename(remotePath)` (POSIX)
for the cases the download handler uses it on. -/
def posixBasename (p : String) : String :=
  match (p.splitOn "/").reverse with
  | [] => p
  | c :: _ => c

/-- Handler of `GET /sftp/download/:connectionId` (src/unnamed/part_001
lines 403-436).  `pathQ` is the `path` query parameter and `getResult`
the outcome of `await sftp.get(remotePath)` (a byte buffer on success). -/
def downloadHandler (reg : Registry) (connectionId : String)
    (pathQ : Option String) (getResult : Except String (List Nat)) :
    Response :=
  if !(truthy pathQ) then
    .json 400 (.obj [("error", .str "Missing remote path"),
                     ("message", .str "Please provide the remote file path using ?path= parameter")])
  else
    match objGet reg connectionId with
    | none => connectionNotFoundResponse
    | some _ =>
      match getResult with
      | .ok data => .fileAttachment (posixBasename (pathQ.getD "")) data
      | .error e =>
        .json 500 (.obj [("error", .str "Failed to download file"),
                         ("message", .str e)])

/-- The staged upload as produced by the multer middleware: `req.file`
with its on-disk staging path, original client-side filename and size. -/
structure UploadedFile where
  path : String
  originalname : String
  size : Nat

/-- POSIX path join, modelling `path.posix.join(remotePath,
req.file.originalname)` for the directory-plus-filename case. -/
def posixJoin (dir file : String) : String :=
  if dir == "" then file
  else if dir.endsWith "/" then dir ++ file
  else dir ++ "/" ++ file

/-- Handler of `POST /sftp/upload/:connectionId` (src/unnamed/part_001
lines 439-489).  `file` is `req.file` (none when no file was uploaded),
`remotePathB` the `path` field of the body, `putResult` the outcome of
`await sftp.put(localPath, remoteFilePath)` and `unlinkResult` the
outcome of `fs.unlinkSync(localPath)`.  In the source the `unlinkSync`
call sits inside the same `try` block as the `put`, so a throwing unlink
lands in the `catch` that reports an upload failure. -/
def uploadHandler (reg : Registry) (connectionId : String)
    (file : Option UploadedFile) (remotePathB : Option String)
    (putResult : Except String Unit) (unlinkResult : Except String Unit)
    (timestamp : String) : Response :=
  match file with
  | none =>
    .json 400 (.obj [("error", .str "No file uploaded"),
                     ("message", .str "Please upload a file")])
  | some f =>
    if !(truthy remotePathB) then
      .json 400 (.obj [("error", .str "Missing remote path"),
                       ("message", .str "Please provide the remote destination path")])
    else
      match objGet reg connectionId with
      | none => connectionNotFoundResponse
      | some _ =>
        let remoteFilePath := posixJoin (remotePathB.getD "") f.originalname
        match putResult with
        | .error e =>
          .json 500 (.obj [("error", .str "Failed to upload file"),
                           ("message", .str e)])
        | .ok _ =>
          match unlinkResult with
          | .error e =>
            .json 500 (.obj [("error", .str "Failed to upload file"),
                             ("message", .str e)])
          | .ok _ =>
            .json 200 (.obj [("success", .bool true),
                             ("message", .str "File uploaded successfully"),
                             ("localFile", .str f.originalname),
                             ("remotePath", .str remoteFilePath),
                             ("size", .num f.size),
                             ("timestamp", .str timestamp)])

/-- The connection configuration object assembled by the connect handler
(src/unnamed/part_001 lines 318-336) and handed to `sftp.connect`. -/
structure ConnectConfig where
  host : String
  port : Nat
  username : String
  readyTimeout : Nat
  retries : Nat
  retry_minTimeout : Nat
  password : Option String
  privateKey : Option String

/-- The base config literal of lines 318-325: `{host, port: port || 22,
username, readyTimeout: 20000, retries: 2, retry_minTimeout: 2000}`. -/
def baseConnectConfig (host username : String) (port : Option Nat) :
    ConnectConfig :=
  { host := host
    port := jsOrNat port 22
    username := username
    readyTimeout := 20000
    retries := 2
    retry_minTimeout := 2000
    password := none
    privateKey := none }

/-- The 400 body returned when neither a password nor a private key is
supplied (lines 332-335). -/
def authRequiredResponse : Response :=
  .json 400 (.obj [("error", .str "Authentication required"),
                   ("message", .str "Either password or privateKey must be provided")])

/-- The auth-selection ladder of lines 327-336: a truthy password wins,
otherwise a truthy private key, otherwise the 400 error. -/
def withAuth (c : ConnectConfig) (password privateKey : Option String) :
    Except Response ConnectConfig :=
  if truthy password then .ok { c with password := password }
  else if truthy privateKey then .ok { c with privateKey := privateKey }
  else .error authRequiredResponse

/-- Modelled from the retry option of the `ssh2-sftp-client` library the
source configures (via the `retry` package): `retries: r` allows a failing
connection attempt to be re-attempted up to `r` further times, so at most
`1 + r` attempts are made for one `connect` call. -/
def connectMaxAttempts (c : ConnectConfig) : Nat :=
  1 + c.retries

/-- Handler of `POST /sftp/connect` (src/unnamed/part_001 lines 304-363).
`now` is the value of `Date.now()` at registration time, `freshHandle`
the new SFTP client object, and `connectResult` the outcome of
`await sftp.connect(config)` as a function of the assembled config.
Returns the response together with the updated registry. -/
def connectHandler (reg : Registry) (now : Nat) (freshHandle : Nat)
    (host username : Option String) (port : Option Nat)
    (password privateKey : Option String)
    (connectResult : ConnectConfig → Except String Unit)
    (timestamp : String) : Response × Registry :=
  if !(truthy host) || !(truthy username) then
    (.json 400 (.obj [("error", .str "Missing required parameters"),
                      ("message", .str "host and username are required")]),
     reg)
  else
    let h := host.getD ""
    let u := username.getD ""
    match withAuth (baseConnectConfig h u port) password privateKey with
    | .error r => (r, reg)
    | .ok config =>
      match connectResult config with
      | .error e =>
        (.json 500 (.obj [("error", .str "SFTP connection failed"),
                          ("message", .str e)]),
         reg)
      | .ok _ =>
        let connectionId := toString now
        (.json 200 (.obj [("success", .bool true),
                          ("connectionId", .str connectionId),
                          ("message", .str "SFTP connection established"),
                          ("server", .str h),
                          ("port", .num (jsOrNat port 22)),
                          ("username", .str u),
                          ("timestamp", .str timestamp)]),
         objSet reg connectionId freshHandle)


/-- A character allowed in a URL scheme after the initial letter. -/
def isSchemeChar (c : Char) : Bool :=
  c.isAlphanum || c == '+' || c == '-' || c == '.'

/-- Scans the tail of a candidate URL for the colon terminating its
scheme, requiring every character before it to be a scheme character. -/
def schemeColonAfter : List Char → Bool
  | [] => false
  | c :: rest => if c == ':' then true else isSchemeChar c && schemeColonAfter rest

/-- Modelled from the WHATWG `new URL(targetUrl)` constructor call at
src/unnamed/part_001 line 283: construction succeeds only when the
string opens with a URL scheme (an ASCII letter followed by letters,
digits, `+`, `-` or `.`) terminated by a colon.  This is a simplification
of the full URL grammar; the proxy handler below depends only on the
validator's success/failure verdict. -/
def isValidURL (s : String) : Bool :=
  match s.toList with
  | [] => false
  | c :: rest => c.isAlpha && schemeColonAfter rest

/-- Outcome of the `/proxy` middleware: either it answers the caller
itself (the validation failures), or it dispatches the request to the
target via the freshly created proxy middleware. -/
inductive ProxyOutcome where
  | reply (r : Response)
  | dispatch (target : String)

/-- Number of outbound network calls an outcome performs: a validation
reply performs none, a dispatch performs exactly one forwarded call. -/
def networkCalls : ProxyOutcome → Nat
  | .reply _ => 0
  | .dispatch _ => 1

/-- The 400 body for an absent (or empty, hence falsy) `url` parameter
(src/unnamed/part_001 lines 274-280). -/
def missingTargetUrlResponse : Response :=
  .json 400 (.obj [("error", .str "Missing target URL"),
                   ("message", .str "Please provide a target URL using ?url= parameter"),
                   ("example", .str "/proxy?url=https://api.example.com/data")])

/-- The 400 body for a string rejected by `new URL` (lines 285-289). -/
def invalidUrlResponse (provided : String) : Response :=
  .json 400 (.obj [("error", .str "Invalid URL"),
                   ("message", .str "Please provide a valid URL"),
                   ("provided", .str provided)])

/-- The `/proxy` middleware (src/unnamed/part_001 lines 271-301):
reads `req.query.url`, rejects falsy and unparsable targets with 400
before any proxying, and otherwise dispatches through a proxy middleware
aimed at the target. -/
def proxyHandler (urlQ : Option String) : ProxyOutcome :=
  if !(truthy urlQ) then .reply missingTargetUrlResponse
  else
    let targetUrl := urlQ.getD ""
    if !(isValidURL targetUrl) then .reply (invalidUrlResponse targetUrl)
    else .dispatch targetUrl

/-- Case-insensitive equality of HTTP header names (Node stores outgoing
headers under case-folded names). -/
def headerNameEq (a b : String) : Bool :=
  a.data.map Char.toLower == b.data.map Char.toLower

/-- `proxyReq.setHeader(name, value)`: replaces any existing header of
the same (case-insensitive) name with the new value. -/
def setHeader (hs : List (String × String)) (n v : String) :
    List (String × String) :=
  (hs.filter (fun p => !(headerNameEq p.1 n))) ++ [(n, v)]

/-- `proxyReq.getHeader(name)`: case-insensitive header lookup. -/
def getHeader (hs : List (String × String)) (n : String) : Option String :=
  (hs.find? (fun p => headerNameEq p.1 n)).map (·.2)

/-- The outbound headers of a forwarded request.  Modelled from
`http-proxy`'s request construction plus the `onProxyReq` hook of
src/unnamed/part_001 lines 259-263: the outbound request starts with a
copy of the caller's headers, and `onProxyReq` then runs
`proxyReq.setHeader('X-Forwarded-For', req.ip)` and
`proxyReq.setHeader('X-Real-IP', req.ip)` before the request is sent, so
the injected values overwrite any caller-supplied headers of those names. -/
def outboundHeaders (callerHeaders : List (String × String))
    (reqIp : String) : List (String × String) :=
  setHeader (setHeader callerHeaders "X-Forwarded-For" reqIp) "X-Real-IP" reqIp

/-- A top-level registration performed by the application while it is
being set up (src/unnamed/part_001 lines 175-576): `app.use` middleware,
`app.get`/`app.post` routes, `process.on` signal handlers, `setInterval`
timers and the final `app.listen`. -/
inductive Registration where
  | middleware (mount : Option String) (what : String)
  | route (method : String) (routePath : String)
  | signalHandler (signal : String)
  | intervalTimer (millis : Nat)
  | listen

/-- The complete, ordered list of top-level registrations the enhanced
server performs (src/unnamed/part_001 lines 179-574).  The source ends
at `app.listen`; it contains no `process.on` call and no `setInterval`
call, so no signal handler and no interval timer is ever registered. -/
def programRegistrations : List Registration :=
  [.middleware none "helmet",
   .middleware none "cors",
   .middleware none "express.json",
   .middleware none "express.urlencoded",
   .route "GET" "/health",
   .route "GET" "/ip",
   .middleware (some "/proxy") "dynamic proxy",
   .route "POST" "/sftp/connect",
   .route "GET" "/sftp/list/:connectionId",
   .route "GET" "/sftp/download/:connectionId",
   .route "POST" "/sftp/upload/:connectionId",
   .route "POST" "/sftp/disconnect/:connectionId",
   .route "GET" "/",
   .middleware none "error handler",
   .middleware (some "*") "404 handler",
   .listen]

/-- Whether a registration is a handler for the given process signal. -/
def isSignalHandlerFor (sig : String) : Registration → Bool
  | .signalHandler s => s == sig
  | _ => false

/-- What happens to the session registry on a process shutdown signal.
Node runs the handlers registered for the signal; when none is
registered the process terminates without running any application code.
The drain body (one close attempt per registry entry, then an empty
registry) is modelled from the spec, since the source registers no such
handler; with no handler registered nothing runs: zero close attempts
and the registry is left untouched at process exit.  Returns the number
of close attempts performed and the remaining registry. -/
def shutdownDrain (regs : List Registration) (sig : String)
    (reg : Registry) : Nat × Registry :=
  match regs.filter (isSignalHandlerFor sig) with
  | [] => (0, reg)
  | _ :: _ => (reg.length, [])

/-! ### Helper lemmas -/

/-- Deleting a key makes its lookup fail. -/
theorem objGet_objDelete_self (reg : Registry) (k : String) :
    objGet (objDelete reg k) k = none := by
  have h : (objDelete reg k).find? (fun p => p.1 == k) = none := by
    apply List.find?_eq_none.mpr
    intro x hx
    have hm := (List.mem_filter.mp hx).2
    simp only [Bool.not_eq_true'] at hm
    simp [hm]
  simp [objGet, h]

/-- `find?` commutes with a `filter` that only discards elements the
`find?` predicate rejects. -/
theorem find?_filter_of_imp {α : Type} (l : List α) (p q : α → Bool)
    (h : ∀ x, p x = true → q x = true) :
    (l.filter q).find? p = l.find? p := by
  induction l with
  | nil => rfl
  | cons a t ih =>
    by_cases hq : q a = true
    · rw [List.filter_cons_of_pos hq]
      by_cases hp : p a = true
      · rw [List.find?_cons_of_pos _ hp, List.find?_cons_of_pos _ hp]
      · rw [List.find?_cons_of_neg _ (by simpa using hp),
            List.find?_cons_of_neg _ (by simpa using hp), ih]
    · rw [List.filter_cons_of_neg (by simpa using hq)]
      have hp : ¬ p a = true := fun hc => hq (h a hc)
      rw [List.find?_cons_of_neg _ (by simpa using hp), ih]

/-- Looking up the header just set yields the value just set. -/
theorem getHeader_setHeader_same (hs : List (String × String)) (n v : String) :
    getHeader (setHeader hs n v) n = some v := by
  have h1 : (hs.filter (fun p => !(headerNameEq p.1 n))).find?
      (fun p => headerNameEq p.1 n) = none := by
    apply List.find?_eq_none.mpr
    intro x hx
    have hm := (List.mem_filter.mp hx).2
    simp only [Bool.not_eq_true'] at hm
    simp [hm]
  simp [getHeader, setHeader, List.find?_append, h1, headerNameEq]

/-- Setting one header leaves lookups of differently-named headers alone. -/
theorem getHeader_setHeader_other (hs : List (String × String)) (n v m : String)
    (h : headerNameEq m n = false) :
    getHeader (setHeader hs n v) m = getHeader hs m := by
  have hmn : ¬ (m.data.map Char.toLower = n.data.map Char.toLower) := by
    simpa [headerNameEq] using h
  have hskip : ∀ x : String × String,
      headerNameEq x.1 m = true → (!(headerNameEq x.1 n)) = true := by
    intro x hx
    simp only [headerNameEq, beq_iff_eq] at hx
    simp only [headerNameEq, Bool.not_eq_true', beq_eq_false_iff_ne, ne_eq]
    intro hc
    rw [hx] at hc
    exact hmn hc
  have h2 : (List.find? (fun p => headerNameEq p.1 m) [(n, v)]) = none := by
    have hne : headerNameEq n m = false := by
      simp only [headerNameEq, beq_eq_false_iff_ne, ne_eq]
      intro hc
      exact hmn hc.symm
    simp [List.find?, hne]
  unfold getHeader setHeader
  rw [List.find?_append, find?_filter_of_imp hs _ _ hskip, h2, Option.or_none]

/-- Value of a decimal digit character. -/
def decDigitVal (c : Char) : Nat := c.toNat - 48

/-- `Nat.digitChar` and `decDigitVal` cancel on single digits. -/
theorem decDigitVal_digitChar (m : Nat) (h : m < 10) :
    decDigitVal (Nat.digitChar m) = m := by
  revert h
  revert m
  decide

/-- Folding the decimal value over `Nat.toDigitsCore`'s output recovers
the rendered number (with the trailing characters folded on top). -/
theorem foldl_decDigitVal_toDigitsCore (fuel : Nat) :
    ∀ (n : Nat) (ds : List Char), n < fuel →
      (Nat.toDigitsCore 10 fuel n ds).foldl (fun a c => a * 10 + decDigitVal c) 0 =
      ds.foldl (fun a c => a * 10 + decDigitVal c) n := by
  induction fuel with
  | zero => intro n ds h; omega
  | succ fuel ih =>
    intro n ds h
    simp only [Nat.toDigitsCore]
    by_cases h0 : n / 10 = 0
    · rw [if_pos h0]
      have hn : n < 10 := by omega
      simp only [List.foldl]
      rw [decDigitVal_digitChar _ (Nat.mod_lt _ (by norm_num)),
          Nat.zero_mul, Nat.zero_add, Nat.mod_eq_of_lt hn]
    · rw [if_neg h0]
      have hlt : n / 10 < fuel := by omega
      rw [ih _ _ hlt]
      simp only [List.foldl]
      rw [decDigitVal_digitChar _ (Nat.mod_lt _ (by norm_num))]
      have hdm : n / 10 * 10 + n % 10 = n := by omega
      rw [hdm]

/-- Decimal rendering of naturals is injective: `toString`, as used to
mint connection ids from `Date.now()`, never identifies two distinct
numbers. -/
theorem toString_nat_injective {m n : Nat} (h : toString m = toString n) :
    m = n := by
  have hd : Nat.toDigits 10 m = Nat.toDigits 10 n := by
    have : (Nat.repr m).data = (Nat.repr n).data := congrArg String.data h
    simpa [Nat.repr, List.asString] using this
  have hm := foldl_decDigitVal_toDigitsCore (m + 1) m [] (Nat.lt_succ_self m)
  have hn := foldl_decDigitVal_toDigitsCore (n + 1) n [] (Nat.lt_succ_self n)
  simp only [List.foldl] at hm hn
  calc m = (Nat.toDigits 10 m).foldl (fun a c => a * 10 + decDigitVal c) 0 := by
            rw [Nat.toDigits, hm]
    _ = (Nat.toDigits 10 n).foldl (fun a c => a * 10 + decDigitVal c) 0 := by rw [hd]
    _ = n := by rw [Nat.toDigits, hn]

/-! ### Claim theorems -/

/-- C1 counterexample: on a registered id `"1"`, a `disconnect` whose
underlying `sftp.end()` raises an I/O error does NOT remove the registry
entry — the subsequent lookup still finds it, because the `delete`
statement sits after the `await` inside the `try` block and is skipped
when the close throws.  This falsifies the claim that the entry is
removed regardless of close failure. -/
theorem disconnect_close_error_keeps_entry :
    objGet (disconnectHandler [("1", 7)] "1" (.error "ECONNRESET") "t").2 "1" =
      some 7 ∧
    ¬ objGet (disconnectHandler [("1", 7)] "1" (.error "ECONNRESET") "t").2 "1" =
      none := by
  constructor
  · rfl
  · intro hc
    simp [disconnectHandler, objGet] at hc

/-- C1 (amended): `disconnect(id)` on a registered id removes the
registry entry exactly when the underlying close succeeds; when the
close raises, the handler answers 500 and the registry — entry
included — is left unchanged. -/
theorem disconnect_removes_entry_iff_close_succeeds
    (reg : Registry) (id : String) (hnd : Nat) (ts : String)
    (hreg : objGet reg id = some hnd) :
    objGet (disconnectHandler reg id (.ok ()) ts).2 id = none ∧
    (disconnectHandler reg id (.ok ()) ts).1.statusCode = 200 ∧
    (∀ e, (disconnectHandler reg id (.error e) ts).2 = reg ∧
          (disconnectHandler reg id (.error e) ts).1.statusCode = 500) := by
  refine ⟨?_, ?_, ?_⟩
  · simp [disconnectHandler, hreg, objGet_objDelete_self]
  · simp [disconnectHandler, hreg, Response.statusCode]
  · intro e
    exact ⟨by simp [disconnectHandler, hreg],
           by simp [disconnectHandler, hreg, Response.statusCode]⟩

/-- C1 witness: the amended theorem applied to the one-entry registry. -/
theorem disconnect_removes_entry_iff_close_succeeds_witness :
    objGet (disconnectHandler [("1", 7)] "1" (.ok ()) "t").2 "1" = none ∧
    (disconnectHandler [("1", 7)] "1" (.error "EIO") "t").2 = [("1", 7)] := by
  have h := disconnect_removes_entry_iff_close_succeeds [("1", 7)] "1" 7 "t" rfl
  exact ⟨h.1, (h.2.2 "EIO").1⟩

/-- C3: for a session id absent from the registry, `list`, `download`
(given a non-empty path), `upload` (given a file and a non-empty path)
and `disconnect` all answer the same 404 `Connection not found` response
built from nothing but the failed lookup (hence no distinction among
never-issued, closed or evicted ids); and after a successful
`disconnect(id)` a subsequent `list(id)` gets that same 404. -/
theorem unknown_session_operations_return_404 :
    connectionNotFoundResponse.statusCode = 404 ∧
    (∀ (reg : Registry) (id : String), objGet reg id = none →
      (∀ pathQ listRes ts,
        listHandler reg id pathQ listRes ts = connectionNotFoundResponse) ∧
      (∀ pathQ getRes, truthy pathQ = true →
        downloadHandler reg id pathQ getRes = connectionNotFoundResponse) ∧
      (∀ f rp putRes unlinkRes ts, truthy rp = true →
        uploadHandler reg id (some f) rp putRes unlinkRes ts =
          connectionNotFoundResponse) ∧
      (∀ endRes ts,
        disconnectHandler reg id endRes ts = (connectionNotFoundResponse, reg))) ∧
    (∀ (reg : Registry) (id : String) (hnd : Nat), objGet reg id = some hnd →
      ∀ ts pathQ listRes ts2,
        listHandler (disconnectHandler reg id (.ok ()) ts).2 id pathQ listRes ts2 =
          connectionNotFoundResponse) := by
  refine ⟨rfl, ?_, ?_⟩
  · intro reg id h
    refine ⟨?_, ?_, ?_, ?_⟩
    · intro pathQ listRes ts
      simp [listHandler, h]
    · intro pathQ getRes ht
      simp [downloadHandler, ht, h]
    · intro f rp putRes unlinkRes ts ht
      simp [uploadHandler, ht, h]
    · intro endRes ts
      simp [disconnectHandler, h]
  · intro reg id hnd h ts pathQ listRes ts2
    simp [disconnectHandler, h, listHandler, objGet_objDelete_self]

/-- C3 witness: the theorem applied to the empty registry with id
`"zzz"`, and the disconnect-then-list sequence on a singleton registry. -/
theorem unknown_session_operations_return_404_witness :
    listHandler [] "zzz" none (.ok []) "t" = connectionNotFoundResponse ∧
    downloadHandler [] "zzz" (some "/a.txt") (.ok []) = connectionNotFoundResponse ∧
    uploadHandler [] "zzz" (some ⟨"uploads/1-a.txt", "a.txt", 3⟩) (some "/dst")
      (.ok ()) (.ok ()) "t" = connectionNotFoundResponse ∧
    disconnectHandler [] "zzz" (.ok ()) "t" = (connectionNotFoundResponse, []) ∧
    listHandler (disconnectHandler [("5", 9)] "5" (.ok ()) "t").2 "5" none
      (.ok []) "t2" = connectionNotFoundResponse := by
  have h := (unknown_session_operations_return_404.2.1 [] "zzz" rfl)
  have h2 := unknown_session_operations_return_404.2.2 [("5", 9)] "5" 9 rfl
  exact ⟨h.1 none (.ok []) "t",
         h.2.1 (some "/a.txt") (.ok []) rfl,
         h.2.2.1 ⟨"uploads/1-a.txt", "a.txt", 3⟩ (some "/dst") (.ok ()) (.ok ()) "t" rfl,
         h.2.2.2 (.ok ()) "t",
         h2 "t" none (.ok []) "t2"⟩

/-- C2 counterexample: two successful `connect` calls with identical
credentials whose `Date.now()` values coincide (two requests in the same
millisecond) are both answered with connection id `"1700000000000"` —
the ids are equal, not distinct — and the second registration overwrites
the first, leaving a single registry entry. -/
theorem connect_same_millisecond_ids_collide :
    (connectHandler [] 1700000000000 1 (some "h") (some "u") none (some "p")
        none (fun _ => .ok ()) "t1").1.bodyKey "connectionId" =
      some (.str "1700000000000") ∧
    (connectHandler
        (connectHandler [] 1700000000000 1 (some "h") (some "u") none (some "p")
          none (fun _ => .ok ()) "t1").2
        1700000000000 2 (some "h") (some "u") none (some "p")
        none (fun _ => .ok ()) "t2").1.bodyKey "connectionId" =
      some (.str "1700000000000") ∧
    (connectHandler
        (connectHandler [] 1700000000000 1 (some "h") (some "u") none (some "p")
          none (fun _ => .ok ()) "t1").2
        1700000000000 2 (some "h") (some "u") none (some "p")
        none (fun _ => .ok ()) "t2").2 = [("1700000000000", 2)] := by
  exact ⟨rfl, rfl, rfl⟩

/-- C2 (amended): the connection id handed out by `connect` is exactly
the decimal rendering of `Date.now()` at registration time, so two
successful connects receive distinct ids if and only if their
`Date.now()` values differ — identical credentials play no role; calls
falling in the same millisecond collide (and the later one overwrites
the earlier registry entry), so ids are not unique for the registry's
lifetime. -/
theorem connect_ids_distinct_for_distinct_timestamps
    (reg1 reg2 : Registry) (now1 now2 fh1 fh2 : Nat)
    (host username password : String) (ts1 ts2 : String)
    (hh : ¬ host = "") (hu : ¬ username = "") (hp : ¬ password = "")
    (hne : now1 ≠ now2) :
    (connectHandler reg1 now1 fh1 (some host) (some username) none
        (some password) none (fun _ => .ok ()) ts1).1.bodyKey "connectionId" =
      some (.str (toString now1)) ∧
    (connectHandler reg2 now2 fh2 (some host) (some username) none
        (some password) none (fun _ => .ok ()) ts2).1.bodyKey "connectionId" =
      some (.str (toString now2)) ∧
    toString now1 ≠ toString now2 := by
  refine ⟨?_, ?_, fun hc => hne (toString_nat_injective hc)⟩ <;>
    simp [connectHandler, truthy, hh, hu, hp, withAuth, Response.bodyKey,
          JsonVal.getKey, List.find?]

/-- C2 witness: distinct timestamps 1700000000000 and 1700000000001
yield the distinct ids "1700000000000" and "1700000000001". -/
theorem connect_ids_distinct_for_distinct_timestamps_witness :
    (connectHandler [] 1700000000000 1 (some "h") (some "u") none (some "p")
        none (fun _ => .ok ()) "t1").1.bodyKey "connectionId" =
      some (.str "1700000000000") ∧
    (connectHandler [] 1700000000001 2 (some "h") (some "u") none (some "p")
        none (fun _ => .ok ()) "t2").1.bodyKey "connectionId" =
      some (.str "1700000000001") ∧
    toString 1700000000000 ≠ toString 1700000000001 := by
  have h := connect_ids_distinct_for_distinct_timestamps [] [] 1700000000000
    1700000000001 1 2 "h" "u" "p" "t1" "t2"
    (by decide) (by decide) (by decide) (by omega)
  exact ⟨h.1, h.2.1, h.2.2⟩

/-- C4: whenever the `url` query parameter is absent, empty, or rejected
by the URL validator, the `/proxy` middleware answers a 400 response
itself (`Missing target URL` / `Invalid URL`) and performs zero outbound
network calls: validation runs before any proxying is set up. -/
theorem proxy_rejects_invalid_target_without_network
    (urlQ : Option String)
    (h : urlQ = none ∨ urlQ = some "" ∨
         ∃ s, urlQ = some s ∧ isValidURL s = false) :
    networkCalls (proxyHandler urlQ) = 0 ∧
    ∃ r, proxyHandler urlQ = .reply r ∧ r.statusCode = 400 := by
  rcases h with h | h | ⟨s, hs, hv⟩
  · subst h
    exact ⟨rfl, missingTargetUrlResponse, rfl, rfl⟩
  · subst h
    exact ⟨rfl, missingTargetUrlResponse, rfl, rfl⟩
  · subst hs
    by_cases he : s = ""
    · subst he
      exact ⟨rfl, missingTargetUrlResponse, rfl, rfl⟩
    · have ht : truthy (some s) = true := by simp [truthy, he]
      refine ⟨?_, invalidUrlResponse s, ?_, rfl⟩ <;>
        simp [proxyHandler, ht, hv, networkCalls]

/-- C4 witness: the scheme-less string "://x" is rejected with a 400
reply and no network call. -/
theorem proxy_rejects_invalid_target_without_network_witness :
    networkCalls (proxyHandler (some "://x")) = 0 ∧
    ∃ r, proxyHandler (some "://x") = .reply r ∧ r.statusCode = 400 :=
  proxy_rejects_invalid_target_without_network (some "://x")
    (Or.inr (Or.inr ⟨"://x", rfl, by decide⟩))

/-- C5 counterexample: an upload on a registered session whose remote
`put` succeeds but whose `fs.unlinkSync` of the local staging file then
throws is answered with status 500 `Failed to upload file` — not with
success — because the unlink runs inside the same `try` block as the
remote write, so its exception lands in the upload `catch`. -/
theorem upload_unlink_failure_returns_error :
    (uploadHandler [("1", 7)] "1" (some ⟨"uploads/163-a.txt", "a.txt", 3⟩)
        (some "/dst") (.ok ()) (.error "EPERM") "t").statusCode = 500 ∧
    (uploadHandler [("1", 7)] "1" (some ⟨"uploads/163-a.txt", "a.txt", 3⟩)
        (some "/dst") (.ok ()) (.error "EPERM") "t").bodyKey "error" =
      some (.str "Failed to upload file") ∧
    (uploadHandler [("1", 7)] "1" (some ⟨"uploads/163-a.txt", "a.txt", 3⟩)
        (some "/dst") (.ok ()) (.error "EPERM") "t").bodyKey "success" =
      none := by
  exact ⟨rfl, rfl, rfl⟩

/-- C5 (amended): for an upload on a registered session whose remote
write succeeds, a failure to delete the local staging artifact DOES fail
the operation: the handler answers 500 `Failed to upload file` carrying
the unlink error's message, while an unlink that succeeds yields the 200
success response. -/
theorem upload_unlink_failure_fails_operation
    (reg : Registry) (id : String) (hnd : Nat) (f : UploadedFile)
    (dst : String) (hreg : objGet reg id = some hnd) (hdst : ¬ dst = "") :
    (∀ e ts,
      uploadHandler reg id (some f) (some dst) (.ok ()) (.error e) ts =
        .json 500 (.obj [("error", .str "Failed to upload file"),
                         ("message", .str e)])) ∧
    (∀ ts,
      (uploadHandler reg id (some f) (some dst) (.ok ()) (.ok ()) ts).statusCode
          = 200 ∧
      (uploadHandler reg id (some f) (some dst) (.ok ()) (.ok ()) ts).bodyKey
          "success" = some (.bool true)) := by
  have ht : truthy (some dst) = true := by simp [truthy, hdst]
  constructor
  · intro e ts
    simp [uploadHandler, ht, hreg]
  · intro ts
    constructor
    · simp [uploadHandler, ht, hreg, Response.statusCode]
    · simp [uploadHandler, ht, hreg, Response.bodyKey, JsonVal.getKey,
            List.find?]

/-- C5 witness: the amended theorem applied to a singleton registry and
a concrete staged file. -/
theorem upload_unlink_failure_fails_operation_witness :
    uploadHandler [("1", 7)] "1" (some ⟨"uploads/163-b.txt", "b.txt", 5⟩)
        (some "/data") (.ok ()) (.error "EACCES") "ts" =
      .json 500 (.obj [("error", .str "Failed to upload file"),
                       ("message", .str "EACCES")]) ∧
    (uploadHandler [("1", 7)] "1" (some ⟨"uploads/163-b.txt", "b.txt", 5⟩)
        (some "/data") (.ok ()) (.ok ()) "ts").statusCode = 200 := by
  have h := upload_unlink_failure_fails_operation [("1", 7)] "1" 7
    ⟨"uploads/163-b.txt", "b.txt", 5⟩ "/data" rfl (by decide)
  exact ⟨h.1 "EACCES" "ts", (h.2 "ts").1⟩

/-- C6 counterexample: a successful `list` on a registered session
returns a 200 body with a `timestamp` field but NO `count` field — the
claimed `{success, files, path, count}` shape does not match the
source's `{success, path, files, timestamp}` response. -/
theorem list_success_body_has_no_count_field :
    (listHandler [("1", 7)] "1" (some ".")
        (.ok [⟨"a.txt", "-", 120, 1700000300000, 1700000200000, "rw-r--r--"⟩])
        "t").statusCode = 200 ∧
    (listHandler [("1", 7)] "1" (some ".")
        (.ok [⟨"a.txt", "-", 120, 1700000300000, 1700000200000, "rw-r--r--"⟩])
        "t").bodyKey "count" = none ∧
    (listHandler [("1", 7)] "1" (some ".")
        (.ok [⟨"a.txt", "-", 120, 1700000300000, 1700000200000, "rw-r--r--"⟩])
        "t").bodyKey "timestamp" = some (.str "t") := by
  exact ⟨rfl, rfl, rfl⟩

/-- C6 (amended): every successful `list(id, path)` call answers 200
with the body `{success: true, path, files: [...], timestamp}` — the
entries rendered in remote order — and that body carries no `count`
field at all. -/
theorem list_success_response_shape
    (reg : Registry) (id : String) (hnd : Nat) (pathQ : Option String)
    (files : List FileEntry) (ts : String)
    (hreg : objGet reg id = some hnd) :
    listHandler reg id pathQ (.ok files) ts =
      .json 200 (listSuccessBody (pathQ.getD ".") files ts) ∧
    (listSuccessBody (pathQ.getD ".") files ts).getKey "success" =
      some (.bool true) ∧
    (listSuccessBody (pathQ.getD ".") files ts).getKey "path" =
      some (.str (pathQ.getD ".")) ∧
    (listSuccessBody (pathQ.getD ".") files ts).getKey "files" =
      some (.arr (files.map FileEntry.toJson)) ∧
    (listSuccessBody (pathQ.getD ".") files ts).getKey "timestamp" =
      some (.str ts) ∧
    (listSuccessBody (pathQ.getD ".") files ts).getKey "count" = none := by
  refine ⟨?_, rfl, rfl, rfl, rfl, rfl⟩
  simp [listHandler, hreg]

/-- C6 witness: the amended theorem applied to a singleton registry and
a one-entry directory listing. -/
theorem list_success_response_shape_witness :
    listHandler [("1", 7)] "1" none
        (.ok [⟨"b.txt", "-", 5, 10, 11, "rw-r--r--"⟩]) "t" =
      .json 200 (listSuccessBody "."
        [⟨"b.txt", "-", 5, 10, 11, "rw-r--r--"⟩] "t") ∧
    (listSuccessBody "." [⟨"b.txt", "-", 5, 10, 11, "rw-r--r--"⟩] "t").getKey
      "count" = none := by
  have h := list_success_response_shape [("1", 7)] "1" 7 none
    [⟨"b.txt", "-", 5, 10, 11, "rw-r--r--"⟩] "t" rfl
  exact ⟨h.1, h.2.2.2.2.2⟩

/-- C7 counterexample: the configuration the connect handler passes to
the underlying SFTP client sets `retries: 2`, so a failing connection
attempt may be performed up to three times in total — not exactly
once as the claim states. -/
theorem connect_config_allows_retries :
    (baseConnectConfig "test.example" "bob" none).retries = 2 ∧
    connectMaxAttempts (baseConnectConfig "test.example" "bob" none) = 3 ∧
    ¬ connectMaxAttempts (baseConnectConfig "test.example" "bob" none) = 1 := by
  exact ⟨rfl, rfl, by decide⟩

/-- C7 (amended): the HTTP forwarder never dispatches more than one
outbound call per request, and the SFTP handlers other than connect
invoke their single underlying operation once per call; `connect`,
however, hands the client a config with `retries: 2` (preserved whatever
authentication is selected), permitting up to three automatic attempts
for one failing connection. -/
theorem retry_configuration_of_core_operations :
    (∀ urlQ, networkCalls (proxyHandler urlQ) ≤ 1) ∧
    (∀ host username port,
      (baseConnectConfig host username port).retries = 2 ∧
      connectMaxAttempts (baseConnectConfig host username port) = 3) ∧
    (∀ c pw k cfg, withAuth c pw k = .ok cfg → cfg.retries = c.retries) := by
  refine ⟨?_, fun _ _ _ => ⟨rfl, rfl⟩, ?_⟩
  · intro urlQ
    cases h : proxyHandler urlQ <;> simp [networkCalls]
  · intro c pw k cfg h
    unfold withAuth at h
    split at h
    · cases h
      rfl
    · split at h
      · cases h
        rfl
      · cases h

/-- C7 witness: the theorem applied to the happy-path connect config
with a password. -/
theorem retry_configuration_of_core_operations_witness :
    networkCalls (proxyHandler (some "https://api.example.com/data")) ≤ 1 ∧
    (baseConnectConfig "h" "u" none).retries = 2 ∧
    ({ baseConnectConfig "h" "u" none with
        password := some "p" } : ConnectConfig).retries = 2 := by
  refine ⟨retry_configuration_of_core_operations.1 _, ?_, ?_⟩
  · exact (retry_configuration_of_core_operations.2.1 "h" "u" none).1
  · exact (retry_configuration_of_core_operations.2.2
      (baseConnectConfig "h" "u" none) (some "p") none _ rfl).trans
      (retry_configuration_of_core_operations.2.1 "h" "u" none).1

/-- C8: every outbound forwarded request carries the attribution headers
the `onProxyReq` hook injects — `X-Forwarded-For` (originating client
IP) and `X-Real-IP` — set to the proxy's own values, whatever headers
the caller supplied under those names: the injection runs on the
outbound request after the caller's headers were merged into it, so it
always wins. -/
theorem attribution_headers_always_injected
    (callerHeaders : List (String × String)) (reqIp : String) :
    getHeader (outboundHeaders callerHeaders reqIp) "X-Forwarded-For" =
      some reqIp ∧
    getHeader (outboundHeaders callerHeaders reqIp) "X-Real-IP" =
      some reqIp := by
  constructor
  · unfold outboundHeaders
    rw [getHeader_setHeader_other _ _ _ _ (by decide)]
    exact getHeader_setHeader_same callerHeaders "X-Forwarded-For" reqIp
  · exact getHeader_setHeader_same _ "X-Real-IP" reqIp

/-- C9 counterexample: the source's top level ends at `app.listen` and
registers no process signal handler, so a shutdown signal with three
sessions open performs zero close attempts and leaves all three registry
entries in place — not three close attempts and an empty registry as
the claim states. -/
theorem shutdown_with_three_sessions_closes_none :
    (shutdownDrain programRegistrations "SIGINT"
        [("1", 1), ("2", 2), ("3", 3)]) = (0, [("1", 1), ("2", 2), ("3", 3)]) ∧
    ¬ ((shutdownDrain programRegistrations "SIGINT"
          [("1", 1), ("2", 2), ("3", 3)]).1 = 3 ∧
       (shutdownDrain programRegistrations "SIGINT"
          [("1", 1), ("2", 2), ("3", 3)]).2 = []) := by
  constructor
  · rfl
  · intro hc
    have h0 : (shutdownDrain programRegistrations "SIGINT"
        [("1", 1), ("2", 2), ("3", 3)]).1 = 0 := rfl
    omega

/-- C9 (amended): the program registers no handler for any process
signal, so on a shutdown signal no application code runs: zero
disconnect-equivalent close attempts are made and the Session Registry
retains every entry it had, whatever its contents. -/
theorem no_shutdown_handler_no_drain (sig : String) (reg : Registry) :
    programRegistrations.filter (isSignalHandlerFor sig) = [] ∧
    shutdownDrain programRegistrations sig reg = (0, reg) := by
  have h : programRegistrations.filter (isSignalHandlerFor sig) = [] := by
    simp [programRegistrations, isSignalHandlerFor, List.filter]
  exact ⟨h, by simp [shutdownDrain, h]⟩

/-- C10: a connect call supplying both a password and a private key does
not fail with the authentication-selection error: the `if/else if`
ladder picks the password, the private key is silently dropped from the
config, and the connection attempt proceeds with password
authentication. -/
theorem connect_password_takes_precedence
    (host username : String) (port : Option Nat) (p k : String)
    (hp : ¬ p = "") :
    ∃ cfg, withAuth (baseConnectConfig host username port) (some p) (some k)
        = .ok cfg ∧
      cfg.password = some p ∧ cfg.privateKey = none := by
  refine ⟨{ baseConnectConfig host username port with password := some p },
    ?_, rfl, rfl⟩
  simp [withAuth, truthy, hp]

/-- C10 witness: both credentials supplied concretely — password "s3",
key "KEYDATA" — the config keeps the password and drops the key. -/
theorem connect_password_takes_precedence_witness :
    ∃ cfg, withAuth (baseConnectConfig "test.example" "bob" none)
        (some "s3") (some "KEYDATA") = .ok cfg ∧
      cfg.password = some "s3" ∧ cfg.privateKey = none :=
  connect_password_takes_precedence "test.example" "bob" none "s3" "KEYDATA"
    (by decide)
